import Mathlib

/-!
Shallow embedding of the case-management core of the repository
(`src/models/case_model.py` and `src/controllers/case_controller.py`).

Python dictionaries are embedded as insertion-ordered association lists
(`List (String × String)`), matching CPython's ordered-dict semantics:
assignment to an existing key updates the value in place, assignment to a
fresh key appends, and `del` removes the entry.  Python's `sorted` is a
stable sort, so `sorted(l, key=lambda x: x[1], reverse=True)` is the
unique stable reordering of `l` that is descending by value with ties
kept in insertion order; `CaseData.sortStagesDesc` below computes that
reordering with a structurally recursive stable insertion sort.  String
comparison is lexicographic in both languages.

Wall-clock fields (`created_date`, `updated_date`, and the
`datetime.now()` defaults for omitted date arguments) are
nondeterministic inputs; the embedding takes the already-resolved date
strings as arguments and omits the two timestamp fields, which no
modelled operation reads.
-/

/-- Python `d[k] = v` on an insertion-ordered dict: update in place if the
key is present, append otherwise. -/
def dictInsert (m : List (String × String)) (k v : String) : List (String × String) :=
  if m.any (fun p => p.1 == k) then
    m.map (fun p => if p.1 == k then (k, v) else p)
  else
    m ++ [(k, v)]

/-- Python `del d[k]` (total version: no-op when the key is absent; every
call site in the source guards with `in`). -/
def dictErase (m : List (String × String)) (k : String) : List (String × String) :=
  m.filter (fun p => !(p.1 == k))

/-- Python `k in d`. -/
def dictContains (m : List (String × String)) (k : String) : Bool :=
  m.any (fun p => p.1 == k)

/-- Python `d.get(k)` (as an option). -/
def dictGet? (m : List (String × String)) (k : String) : Option String :=
  (m.find? (fun p => p.1 == k)).map (fun p => p.2)

/-- Python truthiness of an optional string argument: `None` and `""` are
falsy, every other string is truthy. -/
def truthy : Option String → Bool
  | none => false
  | some s => !(s == "")

/-- `CaseData` from `src/models/case_model.py` (timestamps omitted, see
module docstring). -/
structure CaseData where
  case_id : String
  case_type : String
  client : String
  lawyer : Option String := none
  legal_affairs : Option String := none
  progress : String := "待處理"
  case_reason : Option String := none
  case_number : Option String := none
  opposing_party : Option String := none
  court : Option String := none
  division : Option String := none
  progress_date : Option String := none
  progress_stages : List (String × String) := []
  progress_notes : List (String × String) := []
  progress_times : List (String × String) := []
deriving Repr, DecidableEq

namespace CaseData

/-- `CaseData.update_progress` (case_model.py lines 46-69).  The
`progress_date is None` default has already been resolved to a concrete
date string by the caller. -/
def update_progress (r : CaseData) (new_progress : String) (progress_date : String)
    (note : Option String) (time : Option String) : CaseData :=
  let stages := dictInsert r.progress_stages new_progress progress_date
  let notes :=
    if truthy note then
      dictInsert r.progress_notes new_progress (note.getD "")
    else if dictContains r.progress_notes new_progress && !(truthy note) then
      dictErase r.progress_notes new_progress
    else
      r.progress_notes
  let times :=
    if truthy time then
      dictInsert r.progress_times new_progress (time.getD "")
    else if dictContains r.progress_times new_progress && !(truthy time) then
      dictErase r.progress_times new_progress
    else
      r.progress_times
  { r with
    progress := new_progress
    progress_date := some progress_date
    progress_stages := stages
    progress_notes := notes
    progress_times := times }

/-- `CaseData.add_progress_stage` (case_model.py lines 71-86), with the
`stage_date is None` default already resolved. -/
def add_progress_stage (r : CaseData) (stage_name : String) (stage_date : String)
    (note : Option String) (time : Option String) : CaseData :=
  { r with
    progress_stages := dictInsert r.progress_stages stage_name stage_date
    progress_notes :=
      if truthy note then dictInsert r.progress_notes stage_name (note.getD "")
      else r.progress_notes
    progress_times :=
      if truthy time then dictInsert r.progress_times stage_name (time.getD "")
      else r.progress_times }

/-- Stable descending insertion: place `p` before the first entry whose
date is ≤ `p`'s date (so among equal dates, the earlier-inserted entry
stays first). -/
def insertStageDesc (p : String × String) : List (String × String) → List (String × String)
  | [] => [p]
  | q :: qs => if q.2 ≤ p.2 then p :: q :: qs else q :: insertStageDesc p qs

/-- `sorted(stages.items(), key=lambda x: x[1], reverse=True)` from
`remove_progress_stage`.  Python's `sorted` is a stable sort, descending
here by the date-string key with ties kept in insertion order; this
structurally recursive stable insertion sort computes the same list. -/
def sortStagesDesc : List (String × String) → List (String × String)
  | [] => []
  | p :: ps => insertStageDesc p (sortStagesDesc ps)

/-- `CaseData.remove_progress_stage` (case_model.py lines 118-172).
Returns the updated record and the boolean result (`removed_anything`);
the `except` branch is unreachable in the pure model. -/
def remove_progress_stage (r : CaseData) (stage_name : String) : CaseData × Bool :=
  let removed_anything := dictContains r.progress_stages stage_name
  let stages := dictErase r.progress_stages stage_name
  let notes := dictErase r.progress_notes stage_name
  let times := dictErase r.progress_times stage_name
  let progress :=
    if stage_name == r.progress then
      match sortStagesDesc stages with
      | [] => ""
      | p :: _ => p.1
    else r.progress
  ({ r with
      progress_stages := stages
      progress_notes := notes
      progress_times := times
      progress := progress },
    removed_anything)

/-- `CaseData.update_stage_note` (case_model.py lines 88-95). -/
def update_stage_note (r : CaseData) (stage_name : String) (note : Option String) : CaseData :=
  if dictContains r.progress_stages stage_name then
    { r with progress_notes :=
        if truthy note then dictInsert r.progress_notes stage_name (note.getD "")
        else if dictContains r.progress_notes stage_name then dictErase r.progress_notes stage_name
        else r.progress_notes }
  else r

/-- `CaseData.update_stage_date` (case_model.py lines 174-180). -/
def update_stage_date (r : CaseData) (stage_name : String) (new_date : String) : CaseData :=
  if dictContains r.progress_stages stage_name then
    { r with
      progress_stages := dictInsert r.progress_stages stage_name new_date
      progress_date :=
        if stage_name == r.progress then some new_date else r.progress_date }
  else r

end CaseData

/-- The stage invariant claimed by the spec: whenever `progress_stages` is
non-empty, `progress` is one of its keys. -/
def stageInvariant (r : CaseData) : Prop :=
  r.progress_stages ≠ [] → dictContains r.progress_stages r.progress = true

instance (r : CaseData) : Decidable (stageInvariant r) := by
  unfold stageInvariant; infer_instance

/-!
Controller sagas (`src/controllers/case_controller.py`).  The controller
orchestrates collaborators (`data_manager`, `folder_manager`,
`import_export`, `progress_manager`) whose implementations live outside
the embedded sources; each saga is therefore embedded as a function of an
outcome environment recording what every collaborator call would return
(with a raised exception counted as a failing outcome, since every call
site catches it), and the saga body reproduces the controller's control
flow over those outcomes.  Where a claim needs "no store was mutated",
the saga also returns the list of mutating sub-steps it actually invoked.
-/

/-- Outcomes of the collaborator calls made by
`CaseController.delete_case_folder` (case_controller.py lines 625-728). -/
structure FolderDeleteEnv where
  /-- `get_case_by_id(case_id)` found a record. -/
  caseFound : Bool
  /-- Combined result of path methods 1-2 (`get_case_folder_path` via the
  folder manager, then via `operations`); `none` when neither produced a
  path. -/
  folderPath : Option String
  /-- `os.path.exists(folder_path)` before any deletion attempt. -/
  existsBefore : Bool
  /-- `folder_manager.delete_case_folder` was available and returned
  success (an exception counts as failure). -/
  attempt1 : Bool
  /-- `operations.delete_case_folder` success, tried only if attempt 1
  did not succeed. -/
  attempt2 : Bool
  /-- `shutil.rmtree` did not raise, tried only if attempts 1-2 did not
  succeed. -/
  attempt3 : Bool
  /-- `os.path.exists(folder_path)` at the post-deletion re-check. -/
  existsAfter : Bool
deriving Repr, DecidableEq

/-- `CaseController.delete_case_folder`: resolve the record and the path,
treat an absent folder as success, chain the three deletion attempts, and
downgrade a reported success to failure when the re-check still finds the
path on disk. -/
def delete_case_folder (env : FolderDeleteEnv) : Bool :=
  if !env.caseFound then false
  else
    match env.folderPath with
    | none => false
    | some _ =>
      if !env.existsBefore then true
      else
        let d1 := env.attempt1
        let d2 := if d1 then d1 else env.attempt2
        let d3 := if d2 then d2 else env.attempt3
        if d3 then
          if env.existsAfter then false else true
        else false

/-- Outcomes of the collaborator calls made by
`CaseController.delete_case` (case_controller.py lines 242-306). -/
structure DeleteCaseEnv where
  /-- The record lookup (by id, or by id and type) succeeded. -/
  found : Bool
  /-- Environment seen by the nested `delete_case_folder` call. -/
  folderEnv : FolderDeleteEnv
  /-- `data_manager.delete_case(case_id, case_type)` outcome. -/
  metaDelete : Bool
deriving Repr, DecidableEq

/-- `CaseController.delete_case`: the folder sub-result is computed (and
logged) when requested but the overall result is the metadata-deletion
outcome alone. -/
def delete_case (env : DeleteCaseEnv) (deleteFolder : Bool) : Bool :=
  if !env.found then false
  else
    let _folder_deletion_success :=
      if deleteFolder then delete_case_folder env.folderEnv else true
    let data_deletion_success := env.metaDelete
    data_deletion_success

/-- Outcomes of the collaborator calls made by `CaseController.add_case`
(case_controller.py lines 175-221). -/
structure AddCaseEnv where
  /-- `data_manager.add_case(case_data)` outcome. -/
  metaAdd : Bool
  /-- `folder_manager.create_case_folder_structure` outcome: `.ok b` for a
  boolean return, `.error ()` for a raised exception (caught and logged at
  the call site). -/
  folderCreate : Except Unit Bool
deriving Repr

/-- `CaseController.add_case`: returns the overall result together with
whether folder creation was attempted. -/
def add_case (env : AddCaseEnv) : Bool × Bool :=
  let result := env.metaAdd
  if result then
    let _folder_result := env.folderCreate
    (result, true)
  else (result, false)

/-- Mutating sub-steps that `CaseController.update_case_id` can invoke. -/
inductive RenameStep where
  | dataUpdate
  | excelUpdate
  | progressUpdate
deriving Repr, DecidableEq

/-- Outcomes of the collaborator calls made by
`CaseController.update_case_id` (case_controller.py lines 329-393). -/
structure RenameEnv where
  /-- `validator.validate_case_id_update` outcome and message. -/
  validationOk : Bool
  validationMsg : String
  /-- `data_manager.update_case_id_with_files` outcome and message. -/
  dataOk : Bool
  dataMsg : String
  /-- `import_export.update_excel_content_for_case_id_change` outcome. -/
  excelOk : Bool
  /-- `progress_manager.update_progress_files_for_case_id_change`
  outcome. -/
  progressOk : Bool
deriving Repr, DecidableEq

/-- `CaseController.update_case_id`: validate, then run the authoritative
data step, then the two best-effort steps; returns the result pair and
the list of mutating sub-steps invoked. -/
def update_case_id (env : RenameEnv) : (Bool × String) × List RenameStep :=
  if !env.validationOk then ((false, env.validationMsg), [])
  else if !env.dataOk then ((false, env.dataMsg), [RenameStep.dataUpdate])
  else
    let result_parts := [env.dataMsg]
      ++ (if env.excelOk then ["Excel內容已更新"] else [])
      ++ (if env.progressOk then ["進度檔案已更新"] else [])
    ((true, String.intercalate "，" result_parts),
      [RenameStep.dataUpdate, RenameStep.excelUpdate, RenameStep.progressUpdate])

/-- `CaseController.add_case_progress_stage` (case_controller.py lines
423-446): the progress-manager mutation outcome, then `save_cases()`;
returns the overall result together with whether a save was attempted. -/
def add_case_progress_stage (mutationOk saveOk : Bool) : Bool × Bool :=
  if mutationOk then
    if saveOk then (true, true) else (false, true)
  else (false, false)

/-- `CaseController.update_case_progress_stage` (case_controller.py lines
448-471), same control flow as the add variant. -/
def update_case_progress_stage (mutationOk saveOk : Bool) : Bool × Bool :=
  if mutationOk then
    if saveOk then (true, true) else (false, true)
  else (false, false)

/-- `CaseController.remove_case_progress_stage` (case_controller.py lines
473-495), same control flow as the add variant. -/
def remove_case_progress_stage (mutationOk saveOk : Bool) : Bool × Bool :=
  if mutationOk then
    if saveOk then (true, true) else (false, true)
  else (false, false)

/-- `os.path.join(a, b, c)` for relative components `b`, `c`. -/
def joinPath3 (a b c : String) : String :=
  a ++ "/" ++ b ++ "/" ++ c

/-- `AppConfig.CASE_TYPE_FOLDERS.get(case_type, case_type)`: table lookup
with fallback to the raw case-type string. -/
def caseTypeFolder (table : List (String × String)) (ct : String) : String :=
  (dictGet? table ct).getD ct

/-- `BasicFolderManager.get_case_folder_path` (case_controller.py lines
88-100): compute the path and return it only when it exists on disk
(`fs` is the `os.path.exists` oracle); never creates anything. -/
def basicGetCaseFolderPath (fs : String → Bool) (base : String)
    (table : List (String × String)) (r : CaseData) : Option String :=
  let folder_path := joinPath3 base (caseTypeFolder table r.case_type) r.client
  if fs folder_path then some folder_path else none

/-- The `get_case_folder_path` closure attached by
`CaseController._patch_folder_manager` (case_controller.py lines
104-123): computes the same path but returns it without any existence
check. -/
def patchedGetCaseFolderPath (base : String)
    (table : List (String × String)) (r : CaseData) : Option String :=
  some (joinPath3 base (caseTypeFolder table r.case_type) r.client)

/-!
Concrete records used by witnesses and counterexamples.
-/

/-- The spec's two-stage example record: stages
`{"filed": "2024-01-01", "hearing": "2024-03-01"}` with current progress
`"hearing"`. -/
def caseTwoStages : CaseData :=
  { case_id := "113001", case_type := "民事糾紛", client := "張三",
    progress := "hearing",
    progress_date := some "2024-03-01",
    progress_stages := [("filed", "2024-01-01"), ("hearing", "2024-03-01")] }

/-- A record whose only stage is the current progress. -/
def caseOneStage : CaseData :=
  { case_id := "113002", case_type := "刑事案件", client := "李四",
    progress := "filed",
    progress_date := some "2024-01-01",
    progress_stages := [("filed", "2024-01-01")] }

/-- A freshly created record: default progress `"待處理"`, no stages. -/
def caseFresh : CaseData :=
  { case_id := "113003", case_type := "民事糾紛", client := "王五" }

/-- A record with a note and a time recorded for stage `"filed"`. -/
def caseWithNote : CaseData :=
  { case_id := "113004", case_type := "民事糾紛", client := "趙六",
    progress := "filed",
    progress_date := some "2024-01-01",
    progress_stages := [("filed", "2024-01-01")],
    progress_notes := [("filed", "備註")],
    progress_times := [("filed", "09:30")] }

/-- A record whose case type is not in the case-type table. -/
def caseUnknownType : CaseData :=
  { case_id := "A1", case_type := "x", client := "c" }

/-- Folder-deletion environment: the case folder is absent on disk. -/
def fdeleteAbsent : FolderDeleteEnv :=
  { caseFound := true, folderPath := some "data/民事糾紛/張三",
    existsBefore := false, attempt1 := false, attempt2 := false,
    attempt3 := false, existsAfter := false }

/-- Folder-deletion environment: the folder exists, the first deletion
method reports success, and the re-check finds it gone. -/
def fdeleteOk : FolderDeleteEnv :=
  { caseFound := true, folderPath := some "data/民事糾紛/張三",
    existsBefore := true, attempt1 := true, attempt2 := false,
    attempt3 := false, existsAfter := false }

/-- Folder-deletion environment: a deletion method reports success but
the re-check still finds the folder on disk. -/
def fdeleteStuck : FolderDeleteEnv :=
  { caseFound := true, folderPath := some "data/民事糾紛/張三",
    existsBefore := true, attempt1 := true, attempt2 := false,
    attempt3 := false, existsAfter := true }

/-- Delete-case environment: folder absent, metadata deletion succeeds. -/
def dcEnvAbsent : DeleteCaseEnv :=
  { found := true, folderEnv := fdeleteAbsent, metaDelete := true }

/-- Delete-case environment: folder deletion fails (still present at the
re-check), metadata deletion succeeds. -/
def dcEnvFolderFail : DeleteCaseEnv :=
  { found := true, folderEnv := fdeleteStuck, metaDelete := true }

/-- Rename environment: validation rejects the new identifier. -/
def renameEnvVFail : RenameEnv :=
  { validationOk := false, validationMsg := "案件編號已存在",
    dataOk := true, dataMsg := "", excelOk := true, progressOk := true }

/-- Rename environment: validation passes, the authoritative data step
fails. -/
def renameEnvDFail : RenameEnv :=
  { validationOk := true, validationMsg := "",
    dataOk := false, dataMsg := "更新失敗", excelOk := true,
    progressOk := true }

/-- Rename environment: the authoritative data step succeeds while both
best-effort sub-steps fail. -/
def renameEnvOk : RenameEnv :=
  { validationOk := true, validationMsg := "",
    dataOk := true, dataMsg := "案件編號已更新", excelOk := false,
    progressOk := false }

/-!
Helper lemmas about the dictionary model.
-/

theorem dictContains_of_mem {m : List (String × String)} {k v : String}
    (h : (k, v) ∈ m) : dictContains m k = true := by
  unfold dictContains
  rw [List.any_eq_true]
  exact ⟨(k, v), h, by simp⟩

theorem exists_mem_of_dictContains {m : List (String × String)} {k : String}
    (h : dictContains m k = true) : ∃ v, (k, v) ∈ m := by
  unfold dictContains at h
  rw [List.any_eq_true] at h
  obtain ⟨p, hp, hpk⟩ := h
  have hk : p.1 = k := by simpa using hpk
  exact ⟨p.2, by rw [← hk]; simpa using hp⟩

theorem mem_dictErase {m : List (String × String)} {k v s : String} :
    (k, v) ∈ dictErase m s ↔ (k, v) ∈ m ∧ k ≠ s := by
  unfold dictErase
  rw [List.mem_filter]
  simp

theorem dictContains_erase_self (m : List (String × String)) (s : String) :
    dictContains (dictErase m s) s = false := by
  rw [Bool.eq_false_iff]
  intro h
  obtain ⟨v, hv⟩ := exists_mem_of_dictContains h
  rw [mem_dictErase] at hv
  exact hv.2 rfl

theorem dictContains_erase_of_ne {m : List (String × String)} {k s : String}
    (hk : k ≠ s) (h : dictContains m k = true) :
    dictContains (dictErase m s) k = true := by
  obtain ⟨v, hv⟩ := exists_mem_of_dictContains h
  exact dictContains_of_mem (mem_dictErase.mpr ⟨hv, hk⟩)

theorem dictErase_nil (s : String) : dictErase [] s = [] := rfl

theorem dictErase_ne_nil_imp {m : List (String × String)} {s : String}
    (h : dictErase m s ≠ []) : m ≠ [] := by
  intro hm
  rw [hm] at h
  exact h rfl

theorem dictContains_insert_self (m : List (String × String)) (k v : String) :
    dictContains (dictInsert m k v) k = true := by
  unfold dictInsert
  split
  next h =>
    rw [List.any_eq_true] at h
    obtain ⟨p, hp, hpk⟩ := h
    refine dictContains_of_mem (v := v) ?_
    rw [List.mem_map]
    exact ⟨p, hp, by simp [hpk]⟩
  next h =>
    exact dictContains_of_mem (v := v) (List.mem_append_right _ (by simp))

theorem dictContains_insert_of_contains {m : List (String × String)} {x : String}
    (k v : String) (h : dictContains m x = true) :
    dictContains (dictInsert m k v) x = true := by
  obtain ⟨w, hw⟩ := exists_mem_of_dictContains h
  unfold dictInsert
  split
  next hany =>
    by_cases hxk : x = k
    · subst hxk
      refine dictContains_of_mem (v := v) ?_
      rw [List.mem_map]
      exact ⟨(x, w), hw, by simp⟩
    · refine dictContains_of_mem (v := w) ?_
      rw [List.mem_map]
      exact ⟨(x, w), hw, by simp [hxk]⟩
  next hany =>
    exact dictContains_of_mem (List.mem_append_left _ hw)

/-!
Helper lemmas about the stable descending sort.
-/

theorem mem_insertStageDesc {q p : String × String} :
    ∀ {l : List (String × String)},
      q ∈ CaseData.insertStageDesc p l ↔ q = p ∨ q ∈ l := by
  intro l
  induction l with
  | nil => simp [CaseData.insertStageDesc]
  | cons a as ih =>
    simp only [CaseData.insertStageDesc]
    split
    · simp [List.mem_cons]
    · rw [List.mem_cons, ih, List.mem_cons]
      tauto

theorem insertStageDesc_ne_nil (p : String × String)
    (l : List (String × String)) : CaseData.insertStageDesc p l ≠ [] := by
  cases l with
  | nil => simp [CaseData.insertStageDesc]
  | cons a as =>
    simp only [CaseData.insertStageDesc]
    split <;> simp

theorem sortStagesDesc_eq_nil_iff {l : List (String × String)} :
    CaseData.sortStagesDesc l = [] ↔ l = [] := by
  cases l with
  | nil => simp [CaseData.sortStagesDesc]
  | cons p ps =>
    simp only [CaseData.sortStagesDesc]
    constructor
    · intro h
      exact absurd h (insertStageDesc_ne_nil _ _)
    · intro h
      exact absurd h (by simp)

theorem mem_sortStagesDesc {q : String × String} :
    ∀ {l : List (String × String)}, q ∈ CaseData.sortStagesDesc l ↔ q ∈ l := by
  intro l
  induction l with
  | nil => simp [CaseData.sortStagesDesc]
  | cons p ps ih =>
    simp only [CaseData.sortStagesDesc]
    rw [mem_insertStageDesc, ih, List.mem_cons]

theorem pairwise_insertStageDesc {p : String × String}
    {l : List (String × String)}
    (h : l.Pairwise (fun a b => b.2 ≤ a.2)) :
    (CaseData.insertStageDesc p l).Pairwise (fun a b => b.2 ≤ a.2) := by
  induction l with
  | nil => simp [CaseData.insertStageDesc]
  | cons a as ih =>
    rw [List.pairwise_cons] at h
    obtain ⟨ha, has⟩ := h
    simp only [CaseData.insertStageDesc]
    split
    next hle =>
      refine List.Pairwise.cons ?_ (List.Pairwise.cons ha has)
      intro x hx
      rcases List.mem_cons.mp hx with rfl | hx
      · exact hle
      · exact le_trans (ha x hx) hle
    next hnle =>
      have hpa : p.2 ≤ a.2 := le_of_not_le hnle
      refine List.Pairwise.cons ?_ (ih has)
      intro x hx
      rcases mem_insertStageDesc.mp hx with rfl | hx
      · exact hpa
      · exact ha x hx

theorem pairwise_sortStagesDesc :
    ∀ (l : List (String × String)),
      (CaseData.sortStagesDesc l).Pairwise (fun a b => b.2 ≤ a.2) := by
  intro l
  induction l with
  | nil => simp [CaseData.sortStagesDesc]
  | cons p ps ih =>
    exact pairwise_insertStageDesc ih

/-- The head of the sorted list is an entry of the input whose date is
lexicographically greatest. -/
theorem sortStagesDesc_head_max {l : List (String × String)}
    {p : String × String} {rest : List (String × String)}
    (h : CaseData.sortStagesDesc l = p :: rest) :
    p ∈ l ∧ ∀ q ∈ l, q.2 ≤ p.2 := by
  have hp : p ∈ CaseData.sortStagesDesc l := by
    rw [h]; exact List.mem_cons_self _ _
  refine ⟨mem_sortStagesDesc.mp hp, ?_⟩
  intro q hq
  have hq' : q ∈ CaseData.sortStagesDesc l := mem_sortStagesDesc.mpr hq
  rw [h, List.mem_cons] at hq'
  rcases hq' with rfl | hq'
  · exact le_refl _
  · have hpw := pairwise_sortStagesDesc l
    rw [h, List.pairwise_cons] at hpw
    exact hpw.1 q hq'

/-!
Unfolding lemmas for `remove_progress_stage`.
-/

theorem remove_progress_stage_stages_eq (r : CaseData) (s : String) :
    (r.remove_progress_stage s).1.progress_stages = dictErase r.progress_stages s := by
  simp [CaseData.remove_progress_stage]

theorem remove_progress_stage_progress_date_eq (r : CaseData) (s : String) :
    (r.remove_progress_stage s).1.progress_date = r.progress_date := by
  simp [CaseData.remove_progress_stage]

theorem remove_progress_stage_progress_of_ne (r : CaseData) (s : String)
    (h : s ≠ r.progress) :
    (r.remove_progress_stage s).1.progress = r.progress := by
  have hb : (s == r.progress) = false := by simp [h]
  simp [CaseData.remove_progress_stage, hb]

theorem remove_progress_stage_progress_eq (r : CaseData) (s : String)
    (hcur : s = r.progress) :
    (r.remove_progress_stage s).1.progress =
      match CaseData.sortStagesDesc (dictErase r.progress_stages s) with
      | [] => ""
      | p :: _ => p.1 := by
  subst hcur
  simp [CaseData.remove_progress_stage]

/-- Removing the current progress stage while other stages remain selects a
remaining entry whose date string is greatest. -/
theorem remove_current_mem_remaining (r : CaseData) (s : String)
    (hcur : s = r.progress) (hrem : dictErase r.progress_stages s ≠ []) :
    ∃ d, ((r.remove_progress_stage s).1.progress, d) ∈ dictErase r.progress_stages s ∧
      ∀ q ∈ dictErase r.progress_stages s, q.2 ≤ d := by
  have heq := remove_progress_stage_progress_eq r s hcur
  have hsne : CaseData.sortStagesDesc (dictErase r.progress_stages s) ≠ [] := by
    rw [Ne, sortStagesDesc_eq_nil_iff]
    exact hrem
  cases hs : CaseData.sortStagesDesc (dictErase r.progress_stages s) with
  | nil => exact absurd hs hsne
  | cons p rest =>
    have hmax := sortStagesDesc_head_max hs
    refine ⟨p.2, ?_, hmax.2⟩
    rw [heq, hs]
    simpa using hmax.1

/-- C1: removing a present stage that equals the current progress
reassigns `progress` to a remaining stage whose date string is
lexicographically latest (the function is deterministic, so ties are
broken deterministically), and sets `progress` to the empty string when
no stages remain. -/
theorem remove_stage_reassigns_to_latest (r : CaseData) (s : String)
    (hpres : dictContains r.progress_stages s = true)
    (hcur : s = r.progress) :
    (dictErase r.progress_stages s = [] →
      (r.remove_progress_stage s).1.progress = "") ∧
    (dictErase r.progress_stages s ≠ [] →
      ∃ d, ((r.remove_progress_stage s).1.progress, d) ∈ dictErase r.progress_stages s ∧
        ∀ q ∈ dictErase r.progress_stages s, q.2 ≤ d) := by
  constructor
  · intro hrem
    rw [remove_progress_stage_progress_eq r s hcur, hrem]
    rfl
  · exact remove_current_mem_remaining r s hcur

/-- Witness for C1, on the spec's concrete examples: removing
`"hearing"` from `{"filed": "2024-01-01", "hearing": "2024-03-01"}` with
`progress = "hearing"` yields `progress = "filed"`, and removing the
only stage yields `progress = ""`. -/
theorem remove_stage_reassigns_to_latest_witness :
    (dictContains caseTwoStages.progress_stages "hearing" = true ∧
      "hearing" = caseTwoStages.progress) ∧
    ((dictErase caseTwoStages.progress_stages "hearing" = [] →
        (caseTwoStages.remove_progress_stage "hearing").1.progress = "") ∧
      (dictErase caseTwoStages.progress_stages "hearing" ≠ [] →
        ∃ d, ((caseTwoStages.remove_progress_stage "hearing").1.progress, d) ∈
            dictErase caseTwoStages.progress_stages "hearing" ∧
          ∀ q ∈ dictErase caseTwoStages.progress_stages "hearing", q.2 ≤ d)) ∧
    (caseTwoStages.remove_progress_stage "hearing").1.progress = "filed" ∧
    (caseOneStage.remove_progress_stage "filed").1.progress = "" :=
  ⟨⟨by decide, by decide⟩,
    remove_stage_reassigns_to_latest caseTwoStages "hearing" (by decide) (by decide),
    by decide, by decide⟩

/-- C2 counterexample: a freshly created record (default progress
`"待處理"`, empty stages) satisfies the invariant, yet
`add_progress_stage` — one of the stage operations the claim quantifies
over — yields a record with non-empty `progress_stages` whose `progress`
is not one of its keys, because `add_progress_stage` never updates
`progress`. -/
theorem stage_invariant_broken_by_add :
    stageInvariant caseFresh ∧
    ¬ stageInvariant (caseFresh.add_progress_stage "filed" "2024-01-15" none none) :=
  ⟨by decide, by decide⟩

/-- C2 (amended): the invariant is preserved by `update_progress` and by
`remove_progress_stage` from any satisfying record, and by
`add_progress_stage` from a satisfying record whose `progress_stages` is
already non-empty (from an empty one `add_progress_stage` can break it,
since it never updates `progress`). -/
theorem stage_invariant_preservation (r : CaseData) (h : stageInvariant r) :
    (∀ s d note time, stageInvariant (r.update_progress s d note time)) ∧
    (∀ s, stageInvariant (r.remove_progress_stage s).1) ∧
    (r.progress_stages ≠ [] →
      ∀ s d note time, stageInvariant (r.add_progress_stage s d note time)) := by
  refine ⟨?_, ?_, ?_⟩
  · intro s d note time _
    simp only [CaseData.update_progress]
    exact dictContains_insert_self _ _ _
  · intro s hne
    rw [remove_progress_stage_stages_eq] at hne ⊢
    by_cases hcur : s = r.progress
    · obtain ⟨d, hd, -⟩ := remove_current_mem_remaining r s hcur hne
      exact dictContains_of_mem hd
    · rw [remove_progress_stage_progress_of_ne r s hcur]
      have hm : r.progress_stages ≠ [] := dictErase_ne_nil_imp hne
      exact dictContains_erase_of_ne (fun he => hcur he.symm) (h hm)
  · intro hne s d note time _
    simp only [CaseData.add_progress_stage]
    exact dictContains_insert_of_contains _ _ (h hne)

/-- Witness for the amended C2, instantiated on the two-stage record. -/
theorem stage_invariant_preservation_witness :
    stageInvariant caseTwoStages ∧
    stageInvariant (caseTwoStages.update_progress "判決" "2024-05-01" none none) ∧
    stageInvariant (caseTwoStages.remove_progress_stage "hearing").1 ∧
    stageInvariant (caseTwoStages.add_progress_stage "判決" "2024-05-01" none none) :=
  ⟨by decide,
    (stage_invariant_preservation caseTwoStages (by decide)).1 "判決" "2024-05-01" none none,
    (stage_invariant_preservation caseTwoStages (by decide)).2.1 "hearing",
    (stage_invariant_preservation caseTwoStages (by decide)).2.2 (by decide)
      "判決" "2024-05-01" none none⟩

/-- C9: when the removed stage is the current progress and other stages
remain, `remove_progress_stage` reassigns `progress` to a remaining
stage but leaves `progress_date` unchanged. -/
theorem remove_current_stage_keeps_progress_date (r : CaseData) (s : String)
    (hpres : dictContains r.progress_stages s = true)
    (hcur : s = r.progress)
    (hrem : dictErase r.progress_stages s ≠ []) :
    (r.remove_progress_stage s).1.progress_date = r.progress_date ∧
    dictContains (r.remove_progress_stage s).1.progress_stages
      (r.remove_progress_stage s).1.progress = true := by
  refine ⟨remove_progress_stage_progress_date_eq r s, ?_⟩
  rw [remove_progress_stage_stages_eq]
  obtain ⟨d, hd, -⟩ := remove_current_mem_remaining r s hcur hrem
  exact dictContains_of_mem hd

/-- Witness for C9: after removing the current stage `"hearing"`, the
record's `progress_date` is still the removed stage's date
`"2024-03-01"`, not the date of the newly current `"filed"`. -/
theorem remove_current_stage_keeps_progress_date_witness :
    ((caseTwoStages.remove_progress_stage "hearing").1.progress_date =
        caseTwoStages.progress_date ∧
      dictContains (caseTwoStages.remove_progress_stage "hearing").1.progress_stages
        (caseTwoStages.remove_progress_stage "hearing").1.progress = true) ∧
    (caseTwoStages.remove_progress_stage "hearing").1.progress_date = some "2024-03-01" ∧
    dictGet? (caseTwoStages.remove_progress_stage "hearing").1.progress_stages
      "filed" = some "2024-01-01" :=
  ⟨remove_current_stage_keeps_progress_date caseTwoStages "hearing"
      (by decide) (by decide) (by decide),
    by decide, by decide⟩

/-- C10: calling `update_progress` on stage `s` with no note
(respectively no time) argument deletes an existing note (respectively
time) recorded for `s`. -/
theorem update_progress_none_deletes_note_and_time (r : CaseData) (s d : String) :
    (∀ time, dictContains r.progress_notes s = true →
      dictContains (r.update_progress s d none time).progress_notes s = false) ∧
    (∀ note, dictContains r.progress_times s = true →
      dictContains (r.update_progress s d note none).progress_times s = false) := by
  constructor
  · intro time h
    simp only [CaseData.update_progress, truthy, Bool.not_false, Bool.and_true, h,
      if_true, Bool.false_eq_true, if_false]
    exact dictContains_erase_self _ _
  · intro note h
    simp only [CaseData.update_progress, truthy, Bool.not_false, Bool.and_true, h,
      if_true, Bool.false_eq_true, if_false]
    exact dictContains_erase_self _ _

/-- Witness for C10 on a record with a note and a time for `"filed"`. -/
theorem update_progress_none_deletes_note_and_time_witness :
    (dictContains caseWithNote.progress_notes "filed" = true ∧
      dictContains (caseWithNote.update_progress "filed" "2024-02-02" none none).progress_notes
        "filed" = false) ∧
    (dictContains caseWithNote.progress_times "filed" = true ∧
      dictContains (caseWithNote.update_progress "filed" "2024-02-02" none none).progress_times
        "filed" = false) :=
  ⟨⟨by decide,
      (update_progress_none_deletes_note_and_time caseWithNote "filed" "2024-02-02").1
        none (by decide)⟩,
    ⟨by decide,
      (update_progress_none_deletes_note_and_time caseWithNote "filed" "2024-02-02").2
        none (by decide)⟩⟩

/-!
Controller saga theorems.
-/

/-- C3: for an existing case with folder deletion requested, the overall
result of `delete_case` equals the metadata-deletion outcome alone
(whatever the folder sub-saga did), and when the folder is absent on
disk the folder sub-saga itself reports success, so the overall result
is success whenever metadata deletion succeeds. -/
theorem delete_case_result_is_meta_outcome (env : DeleteCaseEnv)
    (hfound : env.found = true) :
    delete_case env true = env.metaDelete ∧
    (env.folderEnv.caseFound = true → env.folderEnv.folderPath ≠ none →
      env.folderEnv.existsBefore = false →
      delete_case_folder env.folderEnv = true ∧
      (env.metaDelete = true → delete_case env true = true)) := by
  constructor
  · simp [delete_case, hfound]
  · intro h1 h2 h3
    constructor
    · cases hfp : env.folderEnv.folderPath with
      | none => exact absurd hfp h2
      | some p => simp [delete_case_folder, h1, h3, hfp]
    · intro hm
      simp [delete_case, hfound, hm]

/-- Witness for C3: absent folder plus successful metadata deletion gives
overall success; a failed folder deletion with successful metadata
deletion also gives overall success. -/
theorem delete_case_result_is_meta_outcome_witness :
    (delete_case dcEnvAbsent true = dcEnvAbsent.metaDelete ∧
      delete_case_folder dcEnvAbsent.folderEnv = true ∧
      delete_case dcEnvAbsent true = true) ∧
    (delete_case_folder dcEnvFolderFail.folderEnv = false ∧
      delete_case dcEnvFolderFail true = true) :=
  ⟨⟨(delete_case_result_is_meta_outcome dcEnvAbsent rfl).1,
      ((delete_case_result_is_meta_outcome dcEnvAbsent rfl).2 rfl (by decide) rfl).1,
      ((delete_case_result_is_meta_outcome dcEnvAbsent rfl).2 rfl (by decide) rfl).2 rfl⟩,
    ⟨by decide, by decide⟩⟩

/-- C4: `update_case_id` aborts with failure and invokes no mutating
sub-step when validation fails; returns failure when the authoritative
data step fails; and returns success whenever the data step succeeds,
regardless of the spreadsheet-content and progress-file outcomes. -/
theorem update_case_id_saga (env : RenameEnv) :
    (env.validationOk = false →
      (update_case_id env).1.1 = false ∧ (update_case_id env).2 = []) ∧
    (env.validationOk = true → env.dataOk = false →
      (update_case_id env).1.1 = false ∧
      (update_case_id env).2 = [RenameStep.dataUpdate]) ∧
    (env.validationOk = true → env.dataOk = true →
      (update_case_id env).1.1 = true) := by
  refine ⟨?_, ?_, ?_⟩
  · intro h
    simp [update_case_id, h]
  · intro h1 h2
    simp [update_case_id, h1, h2]
  · intro h1 h2
    simp [update_case_id, h1, h2]

/-- Witness for C4 on the three concrete environments: validation
collision (abort, nothing invoked), failing data step, and a successful
data step with both best-effort sub-steps failing. -/
theorem update_case_id_saga_witness :
    ((update_case_id renameEnvVFail).1.1 = false ∧
      (update_case_id renameEnvVFail).2 = []) ∧
    ((update_case_id renameEnvDFail).1.1 = false ∧
      (update_case_id renameEnvDFail).2 = [RenameStep.dataUpdate]) ∧
    (update_case_id renameEnvOk).1.1 = true :=
  ⟨(update_case_id_saga renameEnvVFail).1 rfl,
    (update_case_id_saga renameEnvDFail).2.1 rfl rfl,
    (update_case_id_saga renameEnvOk).2.2 rfl rfl⟩

/-- C5: the overall result of `add_case` equals the metadata-store add
outcome for every folder-creation outcome (including a raised
exception), and folder creation is attempted exactly when the metadata
insertion succeeded. -/
theorem add_case_result_is_meta_outcome (m : Bool) (f : Except Unit Bool) :
    (add_case ⟨m, f⟩).1 = m ∧ (add_case ⟨m, f⟩).2 = m := by
  cases m <;> simp [add_case]

/-- C6: when `delete_case_folder` actually attempted a deletion (the
folder existed beforehand), it returns success only if the post-deletion
re-check finds the path gone, and a reported-success-but-still-present
state is downgraded to failure. -/
theorem delete_case_folder_verifies (env : FolderDeleteEnv)
    (hb : env.existsBefore = true) :
    (delete_case_folder env = true → env.existsAfter = false) ∧
    (env.existsAfter = true → delete_case_folder env = false) := by
  obtain ⟨cf, fp, eb, a1, a2, a3, ea⟩ := env
  cases cf <;> cases fp <;> cases a1 <;> cases a2 <;> cases a3 <;> cases ea <;>
    simp_all [delete_case_folder]

/-- Witness for C6: a verified deletion (re-check finds the path gone)
and a downgraded one (a deletion attempt reported success but the path
is still present, so the overall result is failure). -/
theorem delete_case_folder_verifies_witness :
    (delete_case_folder fdeleteOk = true → fdeleteOk.existsAfter = false) ∧
    delete_case_folder fdeleteStuck = false :=
  ⟨(delete_case_folder_verifies fdeleteOk rfl).1,
    (delete_case_folder_verifies fdeleteStuck rfl).2 rfl⟩

/-- C7: each controller progress-stage mutation returns success exactly
when both the in-memory mutation and the immediate save succeed, and the
save is attempted exactly when the mutation succeeded. -/
theorem progress_stage_mutation_commits_on_save (m sv : Bool) :
    add_case_progress_stage m sv = (m && sv, m) ∧
    update_case_progress_stage m sv = (m && sv, m) ∧
    remove_case_progress_stage m sv = (m && sv, m) := by
  cases m <;> cases sv <;>
    simp [add_case_progress_stage, update_case_progress_stage,
      remove_case_progress_stage]

/-- C8 counterexample: the runtime-patched resolver returns the computed
path even when nothing exists on disk (the existence oracle answers
`false` everywhere), where the claim requires `none`; the basic fallback
resolver does return `none` there. -/
theorem patched_resolver_skips_existence_check :
    patchedGetCaseFolderPath "data" [] caseUnknownType = some "data/x/c" ∧
    basicGetCaseFolderPath (fun _ => false) "data" [] caseUnknownType = none := by
  constructor
  · rfl
  · rfl

/-- C8 (amended): both resolver variants compute
`base / lookup(table, case_type, default=case_type) / client` and create
nothing (they are pure functions of the existence oracle); the basic
fallback variant returns the path exactly when it exists on disk and
`none` otherwise, while the runtime-patched variant returns the computed
path without consulting the existence oracle at all. -/
theorem folder_path_resolution (fs : String → Bool) (base : String)
    (table : List (String × String)) (r : CaseData) :
    (fs (joinPath3 base (caseTypeFolder table r.case_type) r.client) = true →
      basicGetCaseFolderPath fs base table r =
        some (joinPath3 base (caseTypeFolder table r.case_type) r.client)) ∧
    (fs (joinPath3 base (caseTypeFolder table r.case_type) r.client) = false →
      basicGetCaseFolderPath fs base table r = none) ∧
    patchedGetCaseFolderPath base table r =
      some (joinPath3 base (caseTypeFolder table r.case_type) r.client) ∧
    (dictGet? table r.case_type = none →
      caseTypeFolder table r.case_type = r.case_type) := by
  refine ⟨?_, ?_, rfl, ?_⟩
  · intro h
    simp [basicGetCaseFolderPath, h]
  · intro h
    simp [basicGetCaseFolderPath, h]
  · intro h
    simp [caseTypeFolder, h]

/-- Witness for the amended C8, with an all-true and an all-false
existence oracle and an unknown case type falling back to the raw
case-type string. -/
theorem folder_path_resolution_witness :
    basicGetCaseFolderPath (fun _ => true) "data" [] caseUnknownType =
      some (joinPath3 "data" (caseTypeFolder [] caseUnknownType.case_type)
        caseUnknownType.client) ∧
    basicGetCaseFolderPath (fun _ => false) "data" [] caseUnknownType = none ∧
    caseTypeFolder [] caseUnknownType.case_type = caseUnknownType.case_type :=
  ⟨(folder_path_resolution (fun _ => true) "data" [] caseUnknownType).1 rfl,
    (folder_path_resolution (fun _ => false) "data" [] caseUnknownType).2.1 rfl,
    (folder_path_resolution (fun _ => false) "data" [] caseUnknownType).2.2.2 rfl⟩
